import Mathlib

set_option maxHeartbeats 1000000

-- Shallow embedding of the avocado-price predictor core
-- (src/models/predictor.py, src/utils/data_handler.py, src/app/main.py).
-- Prices and feature values are modelled as rationals (IEEE doubles are a
-- subset of ℚ); the opaque float library functions sin, cos, sqrt and the
-- constant pi are taken as parameters, bundled in `OpsFlotantes`.

-- Calendar dates, modelling pandas Timestamps at day granularity
-- (all timestamps in this program are dates with zero time component).
structure Date where
  y : Int
  m : Nat
  d : Nat
  deriving DecidableEq, Repr

-- Lexicographic comparison of dates, as pandas Timestamp comparison.
def Date.le (a b : Date) : Prop :=
  a.y < b.y ∨ (a.y = b.y ∧ (a.m < b.m ∨ (a.m = b.m ∧ a.d ≤ b.d)))

def Date.lt (a b : Date) : Prop :=
  a.y < b.y ∨ (a.y = b.y ∧ (a.m < b.m ∨ (a.m = b.m ∧ a.d < b.d)))

instance : DecidableRel Date.le := fun a b => by
  unfold Date.le; infer_instance

instance : DecidableRel Date.lt := fun a b => by
  unfold Date.lt; infer_instance

-- A structurally valid calendar date has a month in 1..12.
def Date.valid (a : Date) : Prop := 1 ≤ a.m ∧ a.m ≤ 12

instance : DecidablePred Date.valid := fun a => by
  unfold Date.valid; infer_instance

theorem Date.le_refl (a : Date) : Date.le a a := by
  unfold Date.le; omega

theorem Date.le_trans {a b c : Date} (h1 : Date.le a b) (h2 : Date.le b c) :
    Date.le a c := by
  unfold Date.le at *; omega

theorem Date.le_total (a b : Date) : Date.le a b ∨ Date.le b a := by
  unfold Date.le; omega

theorem Date.lt_le_asymm {a b : Date} (h1 : Date.lt a b) (h2 : Date.le b a) :
    False := by
  unfold Date.lt Date.le at *; omega

-- Number of days in a month, Gregorian calendar (pandas semantics).
def daysInMonth (y : Int) (m : Nat) : Nat :=
  if m = 2 then
    if y % 4 = 0 ∧ (y % 100 ≠ 0 ∨ y % 400 = 0) then 29 else 28
  else if m = 4 ∨ m = 6 ∨ m = 9 ∨ m = 11 then 30 else 31

-- `ts - pd.DateOffset(months=k)`: shift back k calendar months, clamping
-- the day to the length of the target month (predictor.py line 204).
def Date.subMonths (a : Date) (k : Nat) : Date :=
  let total : Int := a.y * 12 + ((a.m : Int) - 1) - (k : Int)
  let y2 : Int := Int.ediv total 12
  let m2 : Nat := (Int.emod total 12).toNat + 1
  ⟨y2, m2, min a.d (daysInMonth y2 m2)⟩

-- Subtracting a nonnegative number of calendar months never moves a valid
-- date forward.
theorem Date.subMonths_le (a : Date) (k : Nat) (hv : a.valid) :
    Date.le (a.subMonths k) a := by
  obtain ⟨hm1, hm12⟩ := hv
  unfold Date.subMonths
  set total : Int := a.y * 12 + ((a.m : Int) - 1) - (k : Int) with htot
  have h12 : (0 : Int) < 12 := by norm_num
  have hdm : 12 * Int.ediv total 12 + Int.emod total 12 = total :=
    Int.ediv_add_emod total 12
  have hr0 : 0 ≤ Int.emod total 12 := Int.emod_nonneg total (by norm_num)
  have hr12 : Int.emod total 12 < 12 := Int.emod_lt_of_pos total h12
  have htle : total ≤ a.y * 12 + ((a.m : Int) - 1) := by
    rw [htot]; omega
  -- compare (y2, m2) with (a.y, a.m) through the linearised month index
  have hy2 : Int.ediv total 12 ≤ a.y := by
    by_contra hcon
    push_neg at hcon
    have : a.y + 1 ≤ Int.ediv total 12 := by omega
    have : 12 * (a.y + 1) ≤ 12 * Int.ediv total 12 := by omega
    omega
  rcases lt_or_eq_of_le hy2 with hylt | hyeq
  · exact Or.inl hylt
  · refine Or.inr ⟨hyeq.symm ▸ rfl, ?_⟩
    have hmr : Int.emod total 12 ≤ (a.m : Int) - 1 := by
      rw [hyeq] at hdm; omega
    have hm2 : ((Int.emod total 12).toNat + 1 : Nat) ≤ a.m := by omega
    rcases lt_or_eq_of_le hm2 with hmlt | hmeq
    · exact Or.inl hmlt
    · exact Or.inr ⟨hmeq, by simp [min_le_left]⟩

-- Witness check that the helper lemmas are satisfiable on a real date.
example : Date.le (Date.subMonths ⟨2024, 6, 1⟩ 3) ⟨2024, 6, 1⟩ :=
  Date.subMonths_le ⟨2024, 6, 1⟩ 3 (by constructor <;> norm_num)

example : Date.subMonths ⟨2024, 6, 1⟩ 3 = ⟨2024, 3, 1⟩ := by decide

-- A row of the historical series as loaded by cargar_datos_historicos
-- (data_handler.py lines 15-43): columns Fecha_Pub_DOF and Precio promedio.
-- Loaded prices are taken non-missing, per the series invariant.
structure Row where
  fecha : Date
  precio : ℚ
  deriving DecidableEq, Repr

-- A row of a working DataFrame whose price column may hold NaN (modelled
-- as `none`), as produced when the synthetic prediction row is merged in
-- (predictor.py lines 124-134).
structure DRow where
  fecha : Date
  precio : Option ℚ
  deriving DecidableEq, Repr

-- Row comparison used by sort_values of the date column.
def RowLe (a b : Row) : Prop := Date.le a.fecha b.fecha

def DRowLe (a b : DRow) : Prop := Date.le a.fecha b.fecha

instance : DecidableRel RowLe := fun a b => by unfold RowLe; infer_instance

instance : DecidableRel DRowLe := fun a b => by unfold DRowLe; infer_instance

instance : IsTotal DRow DRowLe := ⟨fun a b => Date.le_total a.fecha b.fecha⟩

instance : IsTrans DRow DRowLe := ⟨fun _ _ _ => Date.le_trans⟩

-- Python round(x, 2): round to 2 decimals, ties to even.
def round2 (x : ℚ) : ℚ :=
  let t := x * 100
  let fl := Int.floor t
  let fr := t - fl
  let n : Int :=
    if fr < 1/2 then fl
    else if 1/2 < fr then fl + 1
    else if fl % 2 = 0 then fl else fl + 1
  (n : ℚ) / 100

example : round2 (25/3) = 833/100 := by norm_num [round2]

-- Series.max over a list of dates; `none` for the empty series (where
-- pandas yields NaT).
def fechaMaxima? : List Date → Option Date
  | [] => none
  | f :: fs => some (fs.foldl (fun a b => if Date.le a b then b else a) f)

theorem fechaMaxima?_foldl_mem (fs : List Date) (a : Date) :
    fs.foldl (fun x b => if Date.le x b then b else x) a = a ∨
      fs.foldl (fun x b => if Date.le x b then b else x) a ∈ fs := by
  induction fs generalizing a with
  | nil => exact Or.inl rfl
  | cons g gs ih =>
    simp only [List.foldl_cons]
    by_cases hg : Date.le a g
    · simp only [if_pos hg]
      rcases ih g with h | h
      · exact Or.inr (by simp [h])
      · exact Or.inr (by simp [h])
    · simp only [if_neg hg]
      rcases ih a with h | h
      · exact Or.inl h
      · exact Or.inr (by simp [h])

theorem fechaMaxima?_foldl_ub (fs : List Date) (a : Date) (x : Date)
    (hx : x = a ∨ x ∈ fs) :
    Date.le x (fs.foldl (fun y b => if Date.le y b then b else y) a) := by
  induction fs generalizing a x with
  | nil =>
    rcases hx with rfl | h
    · exact Date.le_refl x
    · cases h
  | cons g gs ih =>
    simp only [List.foldl_cons]
    have hle_a : Date.le a (if Date.le a g then g else a) := by
      by_cases h : Date.le a g
      · simp only [if_pos h]; exact h
      · simp only [if_neg h]; exact Date.le_refl a
    have hle_g : Date.le g (if Date.le a g then g else a) := by
      by_cases h : Date.le a g
      · simpa [h] using Date.le_refl g
      · rcases Date.le_total g a with h2 | h2
        · simpa [h] using h2
        · exact absurd h2 h
    rcases hx with rfl | hx2
    · exact Date.le_trans hle_a (ih _ _ (Or.inl rfl))
    · rcases List.mem_cons.mp hx2 with rfl | hx3
      · exact Date.le_trans hle_g (ih _ _ (Or.inl rfl))
      · exact ih _ _ (Or.inr hx3)

theorem fechaMaxima?_mem {l : List Date} {mx : Date}
    (h : fechaMaxima? l = some mx) : mx ∈ l := by
  cases l with
  | nil => cases h
  | cons f fs =>
    simp only [fechaMaxima?, Option.some.injEq] at h
    rcases fechaMaxima?_foldl_mem fs f with he | hm
    · rw [← h, he]; exact List.mem_cons_self f fs
    · rw [← h]; exact List.mem_cons_of_mem f hm

theorem fechaMaxima?_ub {l : List Date} {mx : Date}
    (h : fechaMaxima? l = some mx) (x : Date) (hx : x ∈ l) : Date.le x mx := by
  cases l with
  | nil => cases h
  | cons f fs =>
    simp only [fechaMaxima?, Option.some.injEq] at h
    rw [← h]
    rcases List.mem_cons.mp hx with rfl | hx2
    · exact fechaMaxima?_foldl_ub fs x x (Or.inl rfl)
    · exact fechaMaxima?_foldl_ub fs f x (Or.inr hx2)

-- Opaque float operations: numpy sin/cos, math sqrt and the double pi.
-- IEEE doubles are rationals, so each is modelled as an arbitrary function
-- on ℚ; no claim depends on their values.
structure OpsFlotantes where
  senQ : ℚ → ℚ
  cosQ : ℚ → ℚ
  raizQ : ℚ → ℚ
  piQ : ℚ

-- Ops instantiation used by concrete test inputs in the theorems below.
def opsCero : OpsFlotantes := ⟨fun _ => 0, fun _ => 0, fun _ => 0, 0⟩

-- Series.mean
def listaMedia (l : List ℚ) : ℚ := l.sum / (l.length : ℚ)

-- Series.max / Series.min over a non-empty series (callers guard emptiness)
def listaMax : List ℚ → ℚ
  | [] => 0
  | f :: fs => fs.foldl max f

def listaMin : List ℚ → ℚ
  | [] => 0
  | f :: fs => fs.foldl min f

-- radicand of Series.std (sample standard deviation, ddof=1):
-- sum of squared deviations over (n - 1).  For n = 1 pandas yields NaN
-- (0/0); in ℚ the same quotient evaluates to 0.
def varianzaMuestral (l : List ℚ) : ℚ :=
  (l.map (fun x => (x - listaMedia l) ^ 2)).sum / ((l.length : ℚ) - 1)

-- Trend direction classification (predictor.py lines 220-226).
def direccion_tendencia (cambio_porcentual : ℚ) : String :=
  if cambio_porcentual > 5 then "Alcista"
  else if cambio_porcentual < -5 then "Bajista"
  else "Estable"

-- Success payload of obtener_tendencia_historica (predictor.py 228-239).
-- `volatilidad` is round(precios.std(), 2), with std = raizQ applied to the
-- sample variance.
structure TrendInfo where
  periodo_analizado : String
  precio_inicial : ℚ
  precio_final : ℚ
  cambio_absoluto : ℚ
  cambio_porcentual : ℚ
  direccion_tendencia : String
  precio_promedio_periodo : ℚ
  precio_maximo_periodo : ℚ
  precio_minimo_periodo : ℚ
  volatilidad : ℚ
  deriving DecidableEq, Repr

-- The dictionary returned by obtener_tendencia_historica: either a success
-- record or a record with the single key error.
inductive Tendencia where
  | error (msg : String)
  | exito (info : TrendInfo)
  deriving DecidableEq, Repr

-- obtener_tendencia_historica (predictor.py lines 189-242).  The outer
-- Except layer models Python exceptions escaping the call: `.ok` is a
-- normal return, `.error` a propagated exception.  The body is wrapped in
-- try/except, so every path ends in `.ok`.  `datos?` is None when the
-- historical CSV failed to load.  `ultimos_meses` is a month count (the
-- callers pass positive literals; default 12).
-- datos_recientes (predictor.py 203-207): fecha_limite = max(fechas) -
-- DateOffset(months=ultimos_meses), then keep rows at or after it.  An
-- empty series gives NaT and comparison with NaT is always False.
def ventanaReciente (datos : List Row) (ultimos_meses : Nat) : List Row :=
  match fechaMaxima? (datos.map Row.fecha) with
  | some mx =>
    datos.filter (fun r =>
      decide (Date.le (Date.subMonths mx ultimos_meses) r.fecha))
  | none => []

-- The try-block body of obtener_tendencia_historica over a loaded series.
def tendencia_de (ops : OpsFlotantes) (datos : List Row)
    (ultimos_meses : Nat) : Except String Tendencia :=
  match ventanaReciente datos ultimos_meses with
  | [] => .ok (.error "No hay suficientes datos para la tendencia")
  | f :: resto =>
    let precios := (f :: resto).map Row.precio
    let precio_inicial := f.precio
    let precio_final := (resto.getLast?.getD f).precio
    let cambio_absoluto := precio_final - precio_inicial
    -- float division: inicial = 0 gives inf in numpy, 0 in ℚ; the
    -- claims below never exercise a zero initial price.
    let cambio_porcentual := (cambio_absoluto / precio_inicial) * 100
    .ok (.exito
      { periodo_analizado := toString ultimos_meses ++ " meses"
        precio_inicial := round2 precio_inicial
        precio_final := round2 precio_final
        cambio_absoluto := round2 cambio_absoluto
        cambio_porcentual := round2 cambio_porcentual
        direccion_tendencia := direccion_tendencia cambio_porcentual
        precio_promedio_periodo := round2 (listaMedia precios)
        precio_maximo_periodo := round2 (listaMax precios)
        precio_minimo_periodo := round2 (listaMin precios)
        volatilidad := round2 (ops.raizQ (varianzaMuestral precios)) })

def obtener_tendencia_historica (ops : OpsFlotantes)
    (datos? : Option (List Row)) (ultimos_meses : Nat) :
    Except String Tendencia :=
  match datos? with
  | none => .ok (.error "No hay datos historicos cargados")
  | some datos => tendencia_de ops datos ultimos_meses

-- The six-row series of the end-to-end spec example.
def datosC1 : List Row :=
  [⟨⟨2024, 1, 1⟩, 50⟩, ⟨⟨2024, 2, 1⟩, 55⟩, ⟨⟨2024, 3, 1⟩, 60⟩,
   ⟨⟨2024, 4, 1⟩, 58⟩, ⟨⟨2024, 5, 1⟩, 62⟩, ⟨⟨2024, 6, 1⟩, 65⟩]

-- Expected value of the 3-month trend on datosC1 (window is the four rows
-- from 2024-03-01 on, since the filter bound 2024-03-01 is inclusive).
def infoC1 : TrendInfo :=
  { periodo_analizado := "3 meses"
    precio_inicial := 60
    precio_final := 65
    cambio_absoluto := 5
    cambio_porcentual := 833/100
    direccion_tendencia := "Alcista"
    precio_promedio_periodo := 245/4
    precio_maximo_periodo := 65
    precio_minimo_periodo := 58
    volatilidad := 0 }

-- Evaluation of the 3-month trend on the concrete series: the date logic
-- reduces by decide, the rational arithmetic by norm_num.
theorem tendenciaC1_eval : obtener_tendencia_historica opsCero (some datosC1) 3 =
    Except.ok (Tendencia.exito infoC1) := by
  have hmax : fechaMaxima? (datosC1.map Row.fecha) = some ⟨2024, 6, 1⟩ := by
    decide
  have hfil : datosC1.filter
      (fun r => decide (Date.le (Date.subMonths ⟨2024, 6, 1⟩ 3) r.fecha)) =
      [⟨⟨2024, 3, 1⟩, 60⟩, ⟨⟨2024, 4, 1⟩, 58⟩, ⟨⟨2024, 5, 1⟩, 62⟩,
       ⟨⟨2024, 6, 1⟩, 65⟩] := by decide
  simp only [obtener_tendencia_historica, tendencia_de, ventanaReciente,
    hmax, hfil]
  simp only [infoC1, opsCero, listaMedia, listaMax, listaMin, varianzaMuestral,
    direccion_tendencia, List.map, List.getLast?, List.foldl, List.sum,
    List.length, Except.ok.injEq, Tendencia.exito.injEq, TrendInfo.mk.injEq,
    Option.getD]
  norm_num [round2]
  decide

-- Series.shift(k) on a column that may hold NaN: position i receives the
-- value at position i-k, the first k positions become NaN.
def shiftk (k : Nat) (l : List (Option ℚ)) : List (Option ℚ) :=
  (List.replicate k none ++ l).take l.length

-- Series.diff(k): value at i minus value at i-k (NaN when either side is).
def diffk (k : Nat) (l : List (Option ℚ)) : List (Option ℚ) :=
  List.zipWith
    (fun a b =>
      match a, b with
      | some x, some y => some (x - y)
      | _, _ => none)
    l (shiftk k l)

-- Series.rolling(window=w) followed by an aggregate f: position i holds
-- f of the w trailing values when the window is full and free of NaN,
-- NaN otherwise (min_periods defaults to the window size).
def rollingApply (w : Nat) (f : List ℚ → ℚ) (l : List (Option ℚ)) :
    List (Option ℚ) :=
  (List.range l.length).map (fun i =>
    if w ≤ i + 1 then
      match ((l.take (i + 1)).drop (i + 1 - w)).mapM id with
      | some vs => some (f vs)
      | none => none
    else none)

-- Timestamp.dayofyear: position of the date inside its year.
def dayOfYear (a : Date) : Nat :=
  (List.range (a.m - 1)).foldl (fun acc j => acc + daysInMonth a.y (j + 1)) 0
    + a.d

-- Days from the civil epoch 1970-01-01 (Howard Hinnant's algorithm), used
-- to realise timedelta subtraction `.dt.days` between two dates.
def Date.toDays (a : Date) : Int :=
  let y : Int := a.y - (if a.m ≤ 2 then 1 else 0)
  let era : Int := Int.ediv (if 0 ≤ y then y else y - 399) 400
  let yoe : Int := y - era * 400
  let mShift : Int := (a.m : Int) + (if (a.m : Int) > 2 then -3 else 9)
  let doy : Int := Int.ediv (153 * mShift + 2) 5 + ((a.d : Int) - 1)
  let doe : Int := yoe * 365 + Int.ediv yoe 4 - Int.ediv yoe 100 + doy
  era * 146097 + doe - 719468

example : Date.toDays ⟨1970, 1, 1⟩ = 0 := by decide
example : Date.toDays ⟨2024, 3, 1⟩ - Date.toDays ⟨2024, 1, 1⟩ = 60 := by decide

-- One row of the DataFrame produced by crear_caracteristicas_temporales
-- (data_handler.py lines 46-94): the two input columns plus the 18 derived
-- feature columns.  Lag, rolling and difference features carry NaN
-- (`none`) while their window is not full.
structure FeatureRow where
  fecha : Date
  precio : Option ℚ
  year : ℚ
  month : ℚ
  day_of_year : ℚ
  quarter : ℚ
  month_sin : ℚ
  month_cos : ℚ
  day_sin : ℚ
  day_cos : ℚ
  days_since_start : ℚ
  precio_lag1 : Option ℚ
  precio_lag2 : Option ℚ
  precio_lag3 : Option ℚ
  precio_ma3 : Option ℚ
  precio_ma6 : Option ℚ
  precio_std3 : Option ℚ
  precio_diff1 : Option ℚ
  precio_diff2 : Option ℚ
  deriving DecidableEq, Repr

-- Column access by name on a feature row, as selecting df[[c]] does.  The
-- outer Option is column existence (a missing name raises KeyError in
-- pandas); the inner Option is NaN.  The date column is omitted: selecting
-- it into the numeric feature matrix is outside the modelled fragment.
def FeatureRow.lookup (row : FeatureRow) (c : String) : Option (Option ℚ) :=
  if c = "Precio promedio" then some row.precio
  else if c = "year" then some (some row.year)
  else if c = "month" then some (some row.month)
  else if c = "day_of_year" then some (some row.day_of_year)
  else if c = "quarter" then some (some row.quarter)
  else if c = "month_sin" then some (some row.month_sin)
  else if c = "month_cos" then some (some row.month_cos)
  else if c = "day_sin" then some (some row.day_sin)
  else if c = "day_cos" then some (some row.day_cos)
  else if c = "days_since_start" then some (some row.days_since_start)
  else if c = "precio_lag1" then some row.precio_lag1
  else if c = "precio_lag2" then some row.precio_lag2
  else if c = "precio_lag3" then some row.precio_lag3
  else if c = "precio_ma3" then some row.precio_ma3
  else if c = "precio_ma6" then some row.precio_ma6
  else if c = "precio_std3" then some row.precio_std3
  else if c = "precio_diff1" then some row.precio_diff1
  else if c = "precio_diff2" then some row.precio_diff2
  else none

-- Series.min over the date column (callers guarantee non-emptiness).
def fechaMinimaD (l : List Date) : Date :=
  match l with
  | [] => ⟨1970, 1, 1⟩
  | f :: fs => fs.foldl (fun a b => if Date.le b a then b else a) f

-- crear_caracteristicas_temporales (data_handler.py lines 46-94): derive
-- calendar, cyclical, lag, rolling and difference features column-wise
-- over the ordered series.
def crear_caracteristicas_temporales (ops : OpsFlotantes) (df : List DRow) :
    List FeatureRow :=
  let precios := df.map DRow.precio
  let fechaMin := fechaMinimaD (df.map DRow.fecha)
  let lag1 := shiftk 1 precios
  let lag2 := shiftk 2 precios
  let lag3 := shiftk 3 precios
  let ma3 := rollingApply 3 listaMedia precios
  let ma6 := rollingApply 6 listaMedia precios
  let std3 := rollingApply 3 (fun vs => ops.raizQ (varianzaMuestral vs)) precios
  let d1 := diffk 1 precios
  let d2 := diffk 2 precios
  (List.range df.length).map (fun i =>
    let r := df.getD i ⟨⟨1970, 1, 1⟩, none⟩
    { fecha := r.fecha
      precio := r.precio
      year := (r.fecha.y : ℚ)
      month := (r.fecha.m : ℚ)
      day_of_year := (dayOfYear r.fecha : ℚ)
      quarter := (((r.fecha.m + 2) / 3 : Nat) : ℚ)
      month_sin := ops.senQ (2 * ops.piQ * (r.fecha.m : ℚ) / 12)
      month_cos := ops.cosQ (2 * ops.piQ * (r.fecha.m : ℚ) / 12)
      day_sin := ops.senQ (2 * ops.piQ * (dayOfYear r.fecha : ℚ) / 365)
      day_cos := ops.cosQ (2 * ops.piQ * (dayOfYear r.fecha : ℚ) / 365)
      days_since_start := ((r.fecha.toDays - fechaMin.toDays : Int) : ℚ)
      precio_lag1 := (lag1.getD i none)
      precio_lag2 := (lag2.getD i none)
      precio_lag3 := (lag3.getD i none)
      precio_ma3 := (ma3.getD i none)
      precio_ma6 := (ma6.getD i none)
      precio_std3 := (std3.getD i none)
      precio_diff1 := (d1.getD i none)
      precio_diff2 := (d2.getD i none) })

-- Split a character list at a separator, like str.split.
def divideEn (sep : Char) : List Char → List (List Char)
  | [] => [[]]
  | c :: rest =>
    let r := divideEn sep rest
    if c = sep then [] :: r
    else
      match r with
      | [] => [[c]]
      | g :: gs => (c :: g) :: gs

def esDigito (c : Char) : Bool := ('0' ≤ c) && (c ≤ '9')

-- Parse a non-empty all-digit field to a number.
def digitosANat (cs : List Char) : Option Nat :=
  match cs with
  | [] => none
  | _ =>
    cs.foldl
      (fun acc? c =>
        match acc? with
        | none => none
        | some acc =>
          if esDigito c then some (acc * 10 + (c.toNat - 48)) else none)
      (some 0)

-- datetime.strptime(fecha, '%Y-%m-%d'): accept only year-month-day with a
-- real calendar day; anything else raises ValueError (modelled as none).
def parseFecha (s : String) : Option Date :=
  match divideEn (Char.ofNat 45) s.data with
  | [ys, ms, ds] =>
    match digitosANat ys, digitosANat ms, digitosANat ds with
    | some yv, some mv, some dv =>
      if 1 ≤ mv ∧ mv ≤ 12 ∧ 1 ≤ dv ∧ dv ≤ daysInMonth (yv : Int) mv then
        some ⟨(yv : Int), mv, dv⟩
      else none
    | _, _, _ => none
  | _ => none

example : parseFecha "2024-06-15" = some ⟨2024, 6, 15⟩ := by decide
example : parseFecha "fecha-mala" = none := by decide

-- The state of PredictorAguacate after construction (predictor.py 33-52):
-- four artifact components, the historical series, and the load flag.
structure Predictor where
  modelo_svm : Option (List ℚ → ℚ)
  scaler_x : Option (List ℚ → List ℚ)
  scaler_y : Option (ℚ → ℚ)
  columnas_caracteristicas : Option (List String)
  datos_historicos : Option (List Row)
  modelo_cargado : Bool

-- Success record of predecir_precio_fecha (predictor.py 153-160);
-- fecha_prediccion is the wall clock, passed in as the ambient parameter
-- `ahora`.
structure Prediccion where
  fecha : String
  precio : ℚ
  moneda : String
  unidad : String
  fecha_prediccion : String
  modelo_usado : String
  deriving DecidableEq, Repr

-- The dictionary a prediction call returns: success or an error record.
inductive Registro where
  | exito (r : Prediccion)
  | error (msg : String)
  deriving DecidableEq, Repr

-- pd.concat of the historical series with the one synthetic NaN-price row
-- at the target date, followed by sort_values on the date column
-- (predictor.py 124-134).
def df_completo_de (datos : List Row) (dt : Date) : List DRow :=
  List.insertionSort DRowLe
    (datos.map (fun r => ⟨r.fecha, some r.precio⟩) ++ [⟨dt, none⟩])

-- The feature row the code feeds to the model: the LAST row of the merged
-- sorted series (`.iloc[-1:]`, predictor.py line 140).
def fila_seleccionada (ops : OpsFlotantes) (datos : List Row) (dt : Date) :
    Option FeatureRow :=
  (crear_caracteristicas_temporales ops (df_completo_de datos dt)).getLast?

-- .fillna(fallback) over the restricted row (predictor.py 140-142).
def rellenar (vals : List (Option ℚ)) (fallback : ℚ) : List ℚ :=
  vals.map (fun v => v.getD fallback)

-- Body of the try block of predecir_precio_fecha (predictor.py 120-160).
-- `.error` marks a raised Python exception, to be caught by the caller.
def predecir_cuerpo (ops : OpsFlotantes) (p : Predictor)
    (ahora fecha : String) : Except String Prediccion :=
  match parseFecha fecha with
  | none => .error ("Formato de fecha invalido: " ++ fecha)
  | some dt =>
    match p.datos_historicos with
    | none => .error "TypeError: datos_historicos es None"
    | some datos =>
      match p.columnas_caracteristicas with
      | none => .error "TypeError: columnas_caracteristicas es None"
      | some cols =>
        match fila_seleccionada ops datos dt with
        | none => .error "IndexError: DataFrame vacio"
        | some fila =>
          match cols.mapM fila.lookup with
          | none => .error "KeyError: columna ausente"
          | some vals =>
            match datos.getLast? with
            | none => .error "IndexError: iloc sobre serie vacia"
            | some ultimo =>
              match p.scaler_x, p.modelo_svm, p.scaler_y with
              | some sx, some svm, some sy =>
                .ok { fecha := fecha
                      precio := round2 (sy (svm (sx (rellenar vals ultimo.precio))))
                      moneda := "MXN"
                      unidad := "kg"
                      fecha_prediccion := ahora
                      modelo_usado := "SVM con kernel RBF" }
              | _, _, _ => .error "AttributeError: componente del modelo es None"

-- predecir_precio_fecha (predictor.py 103-165).  The outer Except is
-- exception propagation to the caller; the except ValueError / except
-- Exception clauses turn every body exception into an error record, so
-- every branch ends in `.ok`.
def predecir_precio_fecha (ops : OpsFlotantes) (p : Predictor)
    (ahora fecha : String) : Except String Registro :=
  if p.modelo_cargado = false then
    .ok (.error "El modelo no esta cargado correctamente")
  else
    match predecir_cuerpo ops p ahora fecha with
    | .ok r => .ok (.exito r)
    | .error e => .ok (.error e)

-- predecir_multiples_fechas (predictor.py 167-187): a plain loop that
-- appends the per-date result; it has no try/except of its own, so an
-- exception escaping predecir_precio_fecha would escape the loop too.
def predecir_multiples_fechas (ops : OpsFlotantes) (p : Predictor)
    (ahora : String) (fechas : List String) : Except String (List Registro) :=
  fechas.foldlM
    (fun acc fecha =>
      (predecir_precio_fecha ops p ahora fecha).map (fun r => acc ++ [r]))
    []

-- Outcome of the artifact-loading attempt in _cargar_modelo (predictor.py
-- 54-87): the existence pre-check fails, the k-th sequential joblib.load
-- (0 = modelo, 1 = scaler_x, 2 = scaler_y, 3 = features) raises, or all
-- four load.
inductive ResultadoCarga where
  | faltaArchivo
  | fallaCargando (k : Fin 4)
  | exito
  deriving DecidableEq, Repr

-- The predictor state _cargar_modelo leaves behind: loads before the
-- failure point stay assigned, modelo_cargado is True only on full
-- success.  `datosV` is the independent outcome of
-- _cargar_datos_historicos (predictor.py 89-101).
def cargarModelo (svmV : List ℚ → ℚ) (sxV : List ℚ → List ℚ) (syV : ℚ → ℚ)
    (colsV : List String) (datosV : Option (List Row)) (r : ResultadoCarga) :
    Predictor :=
  match r with
  | .faltaArchivo => ⟨none, none, none, none, datosV, false⟩
  | .fallaCargando k =>
    ⟨if 0 < k.val then some svmV else none,
     if 1 < k.val then some sxV else none,
     if 2 < k.val then some syV else none,
     if 3 < k.val then some colsV else none,
     datosV, false⟩
  | .exito => ⟨some svmV, some sxV, some syV, some colsV, datosV, true⟩

-- The report of validar_modelo (predictor.py 244-258).
structure Validacion where
  modelo_svm_cargado : Bool
  scaler_x_cargado : Bool
  scaler_y_cargado : Bool
  columnas_caracteristicas_cargadas : Bool
  datos_historicos_cargados : Bool
  modelo_completamente_funcional : Bool
  deriving DecidableEq, Repr

def validar_modelo (p : Predictor) : Validacion :=
  ⟨p.modelo_svm.isSome,
   p.scaler_x.isSome,
   p.scaler_y.isSome,
   p.columnas_caracteristicas.isSome,
   p.datos_historicos.isSome,
   p.modelo_cargado && p.datos_historicos.isSome⟩

-- Median of a price series, as Series.median.
def medianaLista (l : List ℚ) : ℚ :=
  let s := List.insertionSort (fun a b : ℚ => a ≤ b) l
  let n := s.length
  if n % 2 = 1 then s.getD (n / 2) 0
  else (s.getD (n / 2 - 1) 0 + s.getD (n / 2) 0) / 2

-- The success record of obtener_info_modelo (predictor.py 260-291).  The
-- SVR hyperparameter getattrs return opaque artifact attributes with a
-- string default and are outside the modelled fragment.
structure InfoModelo where
  tipo_modelo : String
  num_caracteristicas : Nat
  caracteristicas_usadas : List String
  escalador_usado : String
  datos_historicos_disponibles : Nat
  fecha_inicio_datos : Option Date
  fecha_fin_datos : Option Date
  deriving DecidableEq, Repr

inductive InfoResultado where
  | error (msg : String)
  | exito (info : InfoModelo)
  deriving DecidableEq, Repr

-- obtener_info_modelo (predictor.py 260-291): guarded by modelo_cargado;
-- the body sits in try/except, so the only non-record outcome (strftime on
-- the NaT min of an empty loaded series) is converted to an error record.
def obtener_info_modelo (p : Predictor) : Except String InfoResultado :=
  if p.modelo_cargado = false then .ok (.error "Modelo no cargado")
  else
    match p.datos_historicos with
    | some [] =>
      .ok (.error "Error al obtener informacion del modelo: NaT")
    | dh =>
      .ok (.exito
        { tipo_modelo := "Support Vector Regression (SVR)"
          num_caracteristicas := (p.columnas_caracteristicas.getD []).length
          caracteristicas_usadas := p.columnas_caracteristicas.getD []
          escalador_usado := "MinMaxScaler"
          datos_historicos_disponibles := (dh.getD []).length
          fecha_inicio_datos := dh.map (fun l => fechaMinimaD (l.map Row.fecha))
          fecha_fin_datos := dh.bind (fun l => fechaMaxima? (l.map Row.fecha)) })

-- The raw CSV DataFrame handed to obtener_estadisticas_datos: presence of
-- the two required columns, plus the parsed rows.
structure DataFrameCSV where
  tienePrecio : Bool
  tieneFecha : Bool
  filas : List Row
  deriving Repr

structure Estadisticas where
  total_registros : Nat
  fecha_inicio : Date
  fecha_fin : Date
  precio_promedio : ℚ
  precio_minimo : ℚ
  precio_maximo : ℚ
  desviacion_estandar : ℚ
  mediana : ℚ
  deriving DecidableEq, Repr

-- obtener_estadisticas_datos (data_handler.py 97-127).  NOTE: this
-- function has no try/except; the explicit `raise ValueError` on a
-- missing price column (line 112) and the strftime failures propagate to
-- the caller, hence genuine `.error` outcomes.
def obtener_estadisticas_datos (ops : OpsFlotantes) (df : DataFrameCSV) :
    Except String Estadisticas :=
  if df.tienePrecio = false then
    .error "El DataFrame debe contener la columna Precio promedio"
  else if df.tieneFecha = false then
    .error "KeyError: Fecha_Pub_DOF"
  else
    match df.filas with
    | [] => .error "NaTType no soporta strftime"
    | f :: fs =>
      .ok
        { total_registros := (f :: fs).length
          fecha_inicio := fechaMinimaD ((f :: fs).map Row.fecha)
          fecha_fin := (fechaMaxima? ((f :: fs).map Row.fecha)).getD f.fecha
          precio_promedio := listaMedia ((f :: fs).map Row.precio)
          precio_minimo := listaMin ((f :: fs).map Row.precio)
          precio_maximo := listaMax ((f :: fs).map Row.precio)
          desviacion_estandar :=
            ops.raizQ (varianzaMuestral ((f :: fs).map Row.precio))
          mediana := medianaLista ((f :: fs).map Row.precio) }

-- precios.diff().dropna(): successive differences of the price series
-- (main.py line 812).
def diffsPrecios (precios : List ℚ) : List ℚ :=
  List.zipWith (fun a b => b - a) precios precios.tail

-- The streak-counting loop of analizar_volatilidad (main.py 813-832):
-- state is the currently tracked streak type (none before any non-zero
-- change, some true = alcista, some false = bajista); a counter bumps
-- whenever the tracked type switches.  Zero changes match neither branch
-- and leave the state untouched.
def rachasGo : Option Bool → List ℚ → Nat × Nat
  | _, [] => (0, 0)
  | tipo, c :: resto =>
    if 0 < c then
      if tipo = some true then rachasGo (some true) resto
      else ((rachasGo (some true) resto).1 + 1, (rachasGo (some true) resto).2)
    else if c < 0 then
      if tipo = some false then rachasGo (some false) resto
      else ((rachasGo (some false) resto).1, (rachasGo (some false) resto).2 + 1)
    else rachasGo tipo resto

-- (rachas_alcistas, rachas_bajistas) for a price series.
def analizar_rachas (precios : List ℚ) : Nat × Nat :=
  rachasGo none (diffsPrecios precios)

-- Specification-side counter: number of maximal runs satisfying p in a
-- list, counted by a scan that remembers whether the previous element
-- satisfied p.
def cuentaRachasGo (p : ℚ → Bool) : Bool → List ℚ → Nat
  | _, [] => 0
  | prev, c :: resto =>
    (if p c && !prev then 1 else 0) + cuentaRachasGo p (p c) resto

def cuentaRachas (p : ℚ → Bool) (l : List ℚ) : Nat := cuentaRachasGo p false l

-- Zero differences are invisible to the streak scan: they match neither
-- branch and leave the tracked type unchanged.
theorem rachasGo_filtra_ceros (l : List ℚ) (tipo : Option Bool) :
    rachasGo tipo (l.filter (fun c => decide (c ≠ 0))) = rachasGo tipo l := by
  induction l generalizing tipo with
  | nil => rfl
  | cons c resto ih =>
    rcases lt_trichotomy 0 c with hpos | hcero | hneg
    · have hne : c ≠ 0 := ne_of_gt hpos
      rw [List.filter_cons, if_pos (by simp [hne])]
      simp only [rachasGo, if_pos hpos, ih]
    · have hc0 : c = 0 := hcero.symm
      subst hc0
      rw [List.filter_cons, if_neg (by simp)]
      simp only [rachasGo]
      rw [if_neg (lt_irrefl 0), if_neg (lt_irrefl 0)]
      exact ih tipo
    · have hne : c ≠ 0 := ne_of_lt hneg
      have hnp : ¬ (0 < c) := not_lt.mpr (le_of_lt hneg)
      rw [List.filter_cons, if_pos (by simp [hne])]
      simp only [rachasGo, if_neg hnp, if_pos hneg, ih]

-- On a zero-free list the streak scan counts exactly the maximal runs of
-- positive entries and of negative entries.
theorem rachasGo_cuenta (l : List ℚ) (hl : ∀ c ∈ l, c ≠ 0) (tipo : Option Bool) :
    rachasGo tipo l =
      (cuentaRachasGo (fun c => decide (0 < c)) (decide (tipo = some true)) l,
       cuentaRachasGo (fun c => decide (c < 0)) (decide (tipo = some false)) l) := by
  induction l generalizing tipo with
  | nil => rfl
  | cons c resto ih =>
    have hc : c ≠ 0 := hl c (List.mem_cons_self c resto)
    have hresto : ∀ x ∈ resto, x ≠ 0 := fun x hx => hl x (List.mem_cons_of_mem c hx)
    rcases lt_trichotomy 0 c with hpos | hcero | hneg
    · have hnp : ¬ (c < 0) := not_lt.mpr (le_of_lt hpos)
      by_cases ht : tipo = some true
      · simp only [rachasGo, if_pos hpos, if_pos ht, cuentaRachasGo,
          ih hresto, ht]
        simp [hpos, hnp]
      · simp only [rachasGo, if_pos hpos, if_neg ht, cuentaRachasGo,
          ih hresto]
        simp [hpos, hnp, ht, Prod.ext_iff]
        omega
    · exact absurd hcero.symm hc
    · have hnp : ¬ (0 < c) := not_lt.mpr (le_of_lt hneg)
      by_cases ht : tipo = some false
      · simp only [rachasGo, if_neg hnp, if_pos hneg, if_pos ht,
          cuentaRachasGo, ih hresto, ht]
        simp [hneg, hnp]
      · simp only [rachasGo, if_neg hnp, if_pos hneg, if_neg ht,
          cuentaRachasGo, ih hresto]
        simp [hneg, hnp, ht, Prod.ext_iff]
        omega

/-- C3: for every price series, the bullish and bearish streak counters of
analizar_volatilidad equal the numbers of maximal runs of consecutive
same-sign non-zero differences (zeros neither start, extend nor break a
streak); on the difference sequence [+2,+1,0,-3,-1,+4] (realised by the
price series [10,12,13,13,10,9,13]) the counts are 2 bullish, 1 bearish. -/
theorem C3_rachas_maximales (precios : List ℚ) :
    analizar_rachas precios =
      (cuentaRachas (fun c => decide (0 < c))
        ((diffsPrecios precios).filter (fun c => decide (c ≠ 0))),
       cuentaRachas (fun c => decide (c < 0))
        ((diffsPrecios precios).filter (fun c => decide (c ≠ 0)))) ∧
    diffsPrecios [10, 12, 13, 13, 10, 9, 13] = [2, 1, 0, -3, -1, 4] ∧
    analizar_rachas [10, 12, 13, 13, 10, 9, 13] = (2, 1) := by
  refine ⟨?_, ?_, ?_⟩
  · unfold analizar_rachas cuentaRachas
    rw [← rachasGo_filtra_ceros]
    have hfil : ∀ c ∈ (diffsPrecios precios).filter
        (fun c => decide (c ≠ 0)), c ≠ 0 := by
      intro c hcm
      have := List.of_mem_filter hcm
      simpa using this
    simpa using rachasGo_cuenta _ hfil none
  · norm_num [diffsPrecios, List.zipWith]
  · have hdiffs : diffsPrecios [10, 12, 13, 13, 10, 9, 13] =
        [2, 1, 0, -3, -1, 4] := by norm_num [diffsPrecios, List.zipWith]
    unfold analizar_rachas
    rw [hdiffs]
    decide

/-- C5: the trend direction is Bullish exactly when the percentage change
exceeds 5, Bearish exactly when it is below -5, Stable otherwise; both
thresholds are strict, so exactly 5 and exactly -5 classify as Stable. -/
theorem C5_umbrales_direccion (pct : ℚ) :
    (direccion_tendencia pct = "Alcista" ↔ 5 < pct) ∧
    (direccion_tendencia pct = "Bajista" ↔ pct < -5) ∧
    (direccion_tendencia pct = "Estable" ↔ (-5 ≤ pct ∧ pct ≤ 5)) ∧
    direccion_tendencia 5 = "Estable" ∧
    direccion_tendencia (-5) = "Estable" := by
  refine ⟨?_, ?_, ?_, by norm_num [direccion_tendencia],
    by norm_num [direccion_tendencia]⟩
  · unfold direccion_tendencia
    split_ifs with h1 h2
    · exact iff_of_true rfl h1
    · exact iff_of_false (by decide) (by linarith)
    · exact iff_of_false (by decide) h1
  · unfold direccion_tendencia
    split_ifs with h1 h2
    · exact iff_of_false (by decide) (by linarith)
    · exact iff_of_true rfl h2
    · exact iff_of_false (by decide) h2
  · unfold direccion_tendencia
    split_ifs with h1 h2
    · exact iff_of_false (by decide) (fun hc => absurd h1 (not_lt.mpr hc.2))
    · exact iff_of_false (by decide) (fun hc => absurd h2 (not_lt.mpr hc.1))
    · exact iff_of_true rfl ⟨not_lt.mp h2, not_lt.mp h1⟩

/-- C6: over every state reachable from the loading procedure, the report
of validar_modelo has modelo_completamente_funcional true exactly when all
five presence flags are true; in particular a reachable state with the
output scaler absent can never report the aggregate as functional. -/
theorem C6_reporte_validacion (svmV : List ℚ → ℚ) (sxV : List ℚ → List ℚ)
    (syV : ℚ → ℚ) (colsV : List String) (datosV : Option (List Row))
    (r : ResultadoCarga) :
    ((validar_modelo (cargarModelo svmV sxV syV colsV datosV r)).modelo_completamente_funcional
      = ((validar_modelo (cargarModelo svmV sxV syV colsV datosV r)).modelo_svm_cargado &&
         (validar_modelo (cargarModelo svmV sxV syV colsV datosV r)).scaler_x_cargado &&
         (validar_modelo (cargarModelo svmV sxV syV colsV datosV r)).scaler_y_cargado &&
         (validar_modelo (cargarModelo svmV sxV syV colsV datosV r)).columnas_caracteristicas_cargadas &&
         (validar_modelo (cargarModelo svmV sxV syV colsV datosV r)).datos_historicos_cargados)) ∧
    ((validar_modelo (cargarModelo svmV sxV syV colsV datosV r)).modelo_completamente_funcional &&
      !(validar_modelo (cargarModelo svmV sxV syV colsV datosV r)).scaler_y_cargado) = false := by
  cases r with
  | faltaArchivo => cases datosV <;> simp [cargarModelo, validar_modelo]
  | fallaCargando k =>
    fin_cases k <;> cases datosV <;> simp [cargarModelo, validar_modelo]
  | exito => cases datosV <;> simp [cargarModelo, validar_modelo]

-- predecir_precio_fecha ends every path in a returned record: the
-- modelo_cargado guard returns an error record, and the try/except
-- converts every body exception into one.
theorem predecir_entrega_registro (ops : OpsFlotantes) (p : Predictor)
    (ahora fecha : String) :
    ∃ r : Registro, predecir_precio_fecha ops p ahora fecha = .ok r := by
  unfold predecir_precio_fecha
  by_cases h : p.modelo_cargado = false
  · rw [if_pos h]
    exact ⟨_, rfl⟩
  · rw [if_neg h]
    cases hc : predecir_cuerpo ops p ahora fecha with
    | ok r => exact ⟨.exito r, rfl⟩
    | error e => exact ⟨.error e, rfl⟩

-- Value of a call that certainly returned (specification-side extractor).
def registroDe (e : Except String Registro) : Registro :=
  match e with
  | .ok r => r
  | .error e => .error e

theorem except_ok_bind {α β : Type} (x : α) (g : α → Except String β) :
    (Except.ok x : Except String α) >>= g = g x := rfl

theorem multiples_foldl (ops : OpsFlotantes) (p : Predictor) (ahora : String)
    (fechas : List String) (acc : List Registro) :
    (fechas.foldlM
      (fun acc fecha =>
        (predecir_precio_fecha ops p ahora fecha).map (fun r => acc ++ [r]))
      acc : Except String (List Registro)) =
      .ok (acc ++ fechas.map
        (fun fecha => registroDe (predecir_precio_fecha ops p ahora fecha))) := by
  induction fechas generalizing acc with
  | nil =>
    rw [List.foldlM_nil,
      show (pure acc : Except String (List Registro)) = Except.ok acc from rfl]
    simp
  | cons f fs ih =>
    obtain ⟨r, hr⟩ := predecir_entrega_registro ops p ahora f
    rw [List.foldlM_cons, hr]
    rw [show (Except.ok r : Except String Registro).map (fun x => acc ++ [x]) =
        Except.ok (acc ++ [r]) from rfl]
    rw [except_ok_bind]
    rw [ih]
    simp [hr, registroDe]

-- The list predecir_multiples_fechas returns.
theorem multiples_eval (ops : OpsFlotantes) (p : Predictor) (ahora : String)
    (fechas : List String) :
    predecir_multiples_fechas ops p ahora fechas =
      .ok (fechas.map
        (fun fecha => registroDe (predecir_precio_fecha ops p ahora fecha))) := by
  unfold predecir_multiples_fechas
  rw [multiples_foldl]
  simp

/-- C8: predecir_multiples_fechas returns a list of exactly the input
length whose i-th element is the result of predecir_precio_fecha on the
i-th input date, for every position; one failed date changes nothing about
the other positions or their order. -/
theorem C8_lote_posicional (ops : OpsFlotantes) (p : Predictor)
    (ahora : String) (fechas : List String) :
    ∃ rs : List Registro,
      predecir_multiples_fechas ops p ahora fechas = .ok rs ∧
      rs.length = fechas.length ∧
      ∀ i : Nat, rs[i]?.map (fun r => (Except.ok r : Except String Registro)) =
        (fechas[i]?).map (predecir_precio_fecha ops p ahora) := by
  refine ⟨_, multiples_eval ops p ahora fechas, by simp, ?_⟩
  intro i
  rw [List.getElem?_map]
  cases hf : fechas[i]? with
  | none => rfl
  | some f =>
    obtain ⟨r, hr⟩ := predecir_entrega_registro ops p ahora f
    simp [hr, registroDe]

-- Concrete CSV frame lacking the price column.
def dfSinPrecio : DataFrameCSV :=
  ⟨false, true, [⟨⟨2024, 1, 1⟩, 50⟩]⟩

-- obtener_tendencia_historica is fully guarded by its try/except: every
-- path returns a record.
theorem tendencia_entrega_registro (ops : OpsFlotantes)
    (datos? : Option (List Row)) (meses : Nat) :
    ∃ t : Tendencia, obtener_tendencia_historica ops datos? meses = .ok t := by
  cases datos? with
  | none => exact ⟨_, rfl⟩
  | some datos =>
    show ∃ t, tendencia_de ops datos meses = .ok t
    unfold tendencia_de
    cases hv : ventanaReciente datos meses with
    | nil => exact ⟨_, rfl⟩
    | cons f resto => exact ⟨_, rfl⟩

-- obtener_info_modelo likewise always returns a record.
theorem info_entrega_registro (p : Predictor) :
    ∃ t : InfoResultado, obtener_info_modelo p = .ok t := by
  unfold obtener_info_modelo
  by_cases h : p.modelo_cargado = false
  · rw [if_pos h]; exact ⟨_, rfl⟩
  · rw [if_neg h]
    cases hd : p.datos_historicos with
    | none => exact ⟨_, rfl⟩
    | some l =>
      cases l with
      | nil => exact ⟨_, rfl⟩
      | cons a resto => exact ⟨_, rfl⟩

/-- C7 counterexample: obtener_estadisticas_datos is a public operation,
yet on a DataFrame without the price column it raises (propagates)
ValueError instead of returning an error record, refuting the claim that
no public core operation lets an exception cross the boundary. -/
theorem C7_contra_estadisticas_lanza :
    obtener_estadisticas_datos opsCero dfSinPrecio =
      Except.error "El DataFrame debe contener la columna Precio promedio" ∧
    (obtener_estadisticas_datos opsCero dfSinPrecio).isOk = false :=
  ⟨rfl, rfl⟩

/-- C7 (amended): the four predictor operations predecir_precio_fecha,
predecir_multiples_fechas, obtener_tendencia_historica and
obtener_info_modelo always return a record (success or error) and never
propagate an exception; obtener_estadisticas_datos is the exception to the
claim and can raise. -/
theorem C7_sin_excepciones (ops : OpsFlotantes) (p : Predictor)
    (ahora fecha : String) (fechas : List String)
    (datos? : Option (List Row)) (meses : Nat) :
    (predecir_precio_fecha ops p ahora fecha).isOk = true ∧
    (predecir_multiples_fechas ops p ahora fechas).isOk = true ∧
    (obtener_tendencia_historica ops datos? meses).isOk = true ∧
    (obtener_info_modelo p).isOk = true := by
  refine ⟨?_, ?_, ?_, ?_⟩
  · obtain ⟨r, hr⟩ := predecir_entrega_registro ops p ahora fecha
    rw [hr]; rfl
  · rw [multiples_eval]; rfl
  · obtain ⟨t, ht⟩ := tendencia_entrega_registro ops datos? meses
    rw [ht]; rfl
  · obtain ⟨t, ht⟩ := info_entrega_registro p
    rw [ht]; rfl

-- Extract (precio_inicial, cambio_absoluto, cambio_porcentual) from a
-- successful trend record.
def resumenTendencia : Except String Tendencia → Option (ℚ × ℚ × ℚ)
  | .ok (.exito i) => some (i.precio_inicial, i.cambio_absoluto, i.cambio_porcentual)
  | _ => none

/-- C1 counterexample: on the six-row series the 3-month window filter
bound 2024-03-01 is inclusive, so the window starts at the March row:
price_start is 60, abs_change 5 and pct_change 8.33 — not the claimed 58,
7 and 12.07. -/
theorem C1_contra_ventana_inclusiva :
    resumenTendencia (obtener_tendencia_historica opsCero (some datosC1) 3) =
      some (60, 5, 833/100) ∧
    ¬ ((60 : ℚ) = 58 ∧ (5 : ℚ) = 7 ∧ (833/100 : ℚ) = 1207/100) := by
  constructor
  · rw [tendenciaC1_eval]; rfl
  · intro hclaim
    exact absurd hclaim.1 (by norm_num)

/-- C1 (amended): on the six-row series, trend(3) filters to the four rows
from 2024-03-01 on (the calendar-month bound is inclusive) and returns
price_start 60, price_end 65, abs_change 5, pct_change 8.33, direction
Bullish (Alcista). -/
theorem C1_tendencia_corregida :
    obtener_tendencia_historica opsCero (some datosC1) 3 =
      Except.ok (Tendencia.exito infoC1) :=
  tendenciaC1_eval

-- In a list sorted by a reflexive transitive relation, the last element
-- bounds every element.
theorem sorted_getLast_cota {α : Type} (r : α → α → Prop)
    (hrefl : ∀ a, r a a) (htr : ∀ {a b c}, r a b → r b c → r a c)
    (l : List α) (hs : List.Sorted r l) (u : α) (hu : l.getLast? = some u) :
    ∀ x ∈ l, r x u := by
  induction l with
  | nil => cases hu
  | cons a resto ih =>
    rcases List.sorted_cons.mp hs with ⟨ha, hresto⟩
    cases resto with
    | nil =>
      intro x hx
      have hxa : x = a := List.mem_singleton.mp hx
      have hau : a = u := by simpa using hu
      rw [hxa, hau]
      exact hrefl u
    | cons b resto2 =>
      rw [List.getLast?_cons_cons] at hu
      intro x hx
      rcases List.mem_cons.mp hx with rfl | hx2
      · exact htr (ha b (List.mem_cons_self b resto2))
          (ih hresto hu b (List.mem_cons_self b resto2))
      · exact ih hresto hu x hx2

/-- C4: in the fillna step of predecir_precio_fecha, every feature value
still missing after restriction to the artifact ordering is replaced by
the price of the last row of the (date-sorted) historical series, which
bounds every historical date — the most recent known price, not zero and
not an interpolation. -/
theorem C4_relleno_ultimo_precio (datos : List Row) (u : Row)
    (hu : datos.getLast? = some u) (hs : List.Sorted RowLe datos)
    (vals : List (Option ℚ)) (k : Nat) (hk : vals[k]? = some none) :
    (rellenar vals u.precio)[k]? = some u.precio ∧
    ∀ r ∈ datos, Date.le r.fecha u.fecha := by
  constructor
  · unfold rellenar
    rw [List.getElem?_map, hk]
    rfl
  · exact sorted_getLast_cota RowLe (fun a => Date.le_refl a.fecha)
      (fun h1 h2 => Date.le_trans h1 h2) datos hs u hu

/-- C4 witness at a concrete sorted series and a missing value. -/
theorem C4_testigo :
    (rellenar [none] ((⟨⟨2024, 6, 1⟩, 65⟩ : Row)).precio)[0]? =
        some ((⟨⟨2024, 6, 1⟩, 65⟩ : Row)).precio ∧
    ∀ r ∈ datosC1, Date.le r.fecha ((⟨⟨2024, 6, 1⟩, 65⟩ : Row)).fecha :=
  C4_relleno_ultimo_precio datosC1 ⟨⟨2024, 6, 1⟩, 65⟩ (by decide) (by decide)
    [none] 0 (by decide)

/-- C10: for a non-empty historical series of valid dates and any month
count, the trend window keeps at least the row bearing the maximum date,
so obtener_tendencia_historica never takes the insufficient-data branch
and always returns a success record. -/
theorem C10_ventana_nunca_vacia (ops : OpsFlotantes) (datos : List Row)
    (meses : Nat) (hne : datos ≠ [])
    (hval : ∀ r ∈ datos, Date.valid r.fecha) :
    ∃ info, obtener_tendencia_historica ops (some datos) meses =
      Except.ok (Tendencia.exito info) := by
  obtain ⟨mx, hmx⟩ : ∃ mx, fechaMaxima? (datos.map Row.fecha) = some mx := by
    cases datos with
    | nil => exact absurd rfl hne
    | cons f fs => exact ⟨_, rfl⟩
  have hmem : mx ∈ datos.map Row.fecha := fechaMaxima?_mem hmx
  obtain ⟨rmax, hrmem, hrf⟩ := List.mem_map.mp hmem
  have hvmx : Date.valid mx := by rw [← hrf]; exact hval rmax hrmem
  have hle : Date.le (Date.subMonths mx meses) rmax.fecha := by
    rw [hrf]; exact Date.subMonths_le mx meses hvmx
  have hfmem : rmax ∈ datos.filter
      (fun r => decide (Date.le (Date.subMonths mx meses) r.fecha)) :=
    List.mem_filter.mpr ⟨hrmem, decide_eq_true hle⟩
  have hvr : ventanaReciente datos meses = datos.filter
      (fun r => decide (Date.le (Date.subMonths mx meses) r.fecha)) := by
    unfold ventanaReciente
    rw [hmx]
  show ∃ info, tendencia_de ops datos meses =
    Except.ok (Tendencia.exito info)
  unfold tendencia_de
  cases hv : ventanaReciente datos meses with
  | nil =>
    have : rmax ∈ ventanaReciente datos meses := hvr ▸ hfmem
    rw [hv] at this
    cases this
  | cons f resto => exact ⟨_, rfl⟩

/-- C10 witness on the concrete six-row series with a 5-month window. -/
theorem C10_testigo :
    ∃ info, obtener_tendencia_historica opsCero (some datosC1) 5 =
      Except.ok (Tendencia.exito info) :=
  C10_ventana_nunca_vacia opsCero datosC1 5 (by decide) (by decide)

theorem crear_longitud (ops : OpsFlotantes) (df : List DRow) :
    (crear_caracteristicas_temporales ops df).length = df.length := by
  unfold crear_caracteristicas_temporales
  simp

-- The synthesizer copies the date of the i-th input row into the i-th
-- feature row.
theorem crear_getElem?_fecha (ops : OpsFlotantes) (df : List DRow) (i : Nat)
    (hi : i < df.length) :
    ((crear_caracteristicas_temporales ops df)[i]?).map FeatureRow.fecha =
      (df[i]?).map DRow.fecha := by
  unfold crear_caracteristicas_temporales
  rw [List.getElem?_map, List.getElem?_range hi]
  rw [List.getElem?_eq_getElem hi]
  simp [List.getD_eq_getElem?_getD, List.getElem?_eq_getElem hi]

theorem crear_getLast?_fecha (ops : OpsFlotantes) (df : List DRow) :
    ((crear_caracteristicas_temporales ops df).getLast?).map FeatureRow.fecha =
      (df.getLast?).map DRow.fecha := by
  cases df with
  | nil => rfl
  | cons a resto =>
    have hlen : (a :: resto).length - 1 < (a :: resto).length := by
      simp
    rw [List.getLast?_eq_getElem?, List.getLast?_eq_getElem?, crear_longitud]
    exact crear_getElem?_fecha ops (a :: resto) ((a :: resto).length - 1) hlen

/-- C2 (amended): the row predecir_precio_fecha feeds to the model is the
last row of the merged, date-sorted series, so it is the row at the
requested date exactly when the target date lies strictly after every
historical timestamp; for such future dates the selected row carries the
requested date. -/
theorem C2_fila_es_la_ultima (ops : OpsFlotantes) (datos : List Row)
    (dt : Date) (hfut : ∀ r ∈ datos, Date.lt r.fecha dt) :
    (fila_seleccionada ops datos dt).map FeatureRow.fecha = some dt := by
  unfold fila_seleccionada
  rw [crear_getLast?_fecha]
  have hsort : List.Sorted DRowLe (df_completo_de datos dt) :=
    List.sorted_insertionSort DRowLe _
  have hperm : List.Perm (df_completo_de datos dt)
      (datos.map (fun r => (⟨r.fecha, some r.precio⟩ : DRow)) ++
        [(⟨dt, none⟩ : DRow)]) :=
    List.perm_insertionSort DRowLe _
  have hmem : (⟨dt, none⟩ : DRow) ∈ df_completo_de datos dt := by
    rw [hperm.mem_iff]
    simp
  cases hu : (df_completo_de datos dt).getLast? with
  | none =>
    rw [List.getLast?_eq_none_iff] at hu
    rw [hu] at hmem
    cases hmem
  | some u =>
    have hub := sorted_getLast_cota DRowLe (fun a => Date.le_refl a.fecha)
      (fun h1 h2 => Date.le_trans h1 h2) _ hsort u hu
    have hdtu : Date.le dt u.fecha := hub ⟨dt, none⟩ hmem
    have humem : u ∈ df_completo_de datos dt :=
      List.mem_of_mem_getLast? hu
    have hu2 : u ∈ datos.map (fun r => (⟨r.fecha, some r.precio⟩ : DRow)) ++
        [(⟨dt, none⟩ : DRow)] := hperm.subset humem
    rcases List.mem_append.mp hu2 with hh | hs2
    · obtain ⟨r, hr, hru⟩ := List.mem_map.mp hh
      exfalso
      apply Date.lt_le_asymm (hfut r hr)
      rw [← hru] at hdtu
      exact hdtu
    · have he : u = ⟨dt, none⟩ := List.mem_singleton.mp hs2
      rw [he]
      rfl

/-- C2 counterexample: for the past target date 2024-02-15 against the
six-row series the selected feature row is the one at 2024-06-01 (the last
row of the merged sorted series), not the row at the requested date, so
the claim fails for dates earlier than the newest historical timestamp. -/
theorem C2_contra_fecha_pasada :
    (fila_seleccionada opsCero datosC1 ⟨2024, 2, 15⟩).map FeatureRow.fecha =
      some ⟨2024, 6, 1⟩ ∧ (⟨2024, 6, 1⟩ : Date) ≠ ⟨2024, 2, 15⟩ := by
  constructor
  · decide
  · decide

/-- C2 witness: for a strictly future target date the selected row is the
synthetic row at that date. -/
theorem C2_testigo :
    (fila_seleccionada opsCero datosC1 ⟨2024, 7, 15⟩).map FeatureRow.fecha =
      some ⟨2024, 7, 15⟩ :=
  C2_fila_es_la_ultima opsCero datosC1 ⟨2024, 7, 15⟩ (by decide)

theorem shiftk_getElem? (k : Nat) (l : List (Option ℚ)) (i : Nat)
    (hk : k ≤ i) (hi : i < l.length) :
    (shiftk k l)[i]? = l[i - k]? := by
  unfold shiftk
  rw [List.getElem?_take_of_lt hi,
    List.getElem?_append_right (by rw [List.length_replicate]; exact hk),
    List.length_replicate]

-- A full 3-window ending at position i is the three positions i-2..i.
theorem ventana_tres (l : List (Option ℚ)) (i : Nat) (h2 : 2 ≤ i)
    (hi : i < l.length) :
    (l.take (i + 1)).drop (i + 1 - 3) =
      [l.getD (i - 2) none, l.getD (i - 1) none, l.getD i none] := by
  have h3 : i + 1 - 3 = i - 2 := by omega
  rw [h3]
  apply List.ext_getElem?
  intro n
  by_cases hn : n < 3
  · rw [List.getElem?_drop, List.getElem?_take_of_lt (by omega)]
    interval_cases n
    · rw [show i - 2 + 0 = i - 2 by omega,
        List.getElem?_eq_getElem (show i - 2 < l.length by omega)]
      exact congrArg some
        (List.getD_eq_getElem l none (show i - 2 < l.length by omega)).symm
    · rw [show i - 2 + 1 = i - 1 by omega,
        List.getElem?_eq_getElem (show i - 1 < l.length by omega)]
      exact congrArg some
        (List.getD_eq_getElem l none (show i - 1 < l.length by omega)).symm
    · rw [show i - 2 + 2 = i by omega,
        List.getElem?_eq_getElem hi]
      exact congrArg some (List.getD_eq_getElem l none hi).symm
  · rw [List.getElem?_eq_none, List.getElem?_eq_none]
    · simp only [List.length_cons, List.length_nil]
      omega
    · rw [List.length_drop, List.length_take]
      omega

-- Field extraction on the synthesized rows: feature columns at position i
-- are position i of the corresponding column series.
theorem crear_getElem_campos (ops : OpsFlotantes) (df : List DRow) (i : Nat)
    (hi : i < df.length) :
    ((crear_caracteristicas_temporales ops df)[i]?).map FeatureRow.precio_ma3 =
      some ((rollingApply 3 listaMedia (df.map DRow.precio)).getD i none) ∧
    ((crear_caracteristicas_temporales ops df)[i]?).map FeatureRow.precio_lag1 =
      some ((shiftk 1 (df.map DRow.precio)).getD i none) := by
  constructor
  · simp only [crear_caracteristicas_temporales]
    rw [List.getElem?_map, List.getElem?_range hi]
    rfl
  · simp only [crear_caracteristicas_temporales]
    rw [List.getElem?_map, List.getElem?_range hi]
    rfl

-- Default row used to phrase positional access without dependent indices.
def parDefecto : Date × ℚ := (⟨1970, 1, 1⟩, 0)

/-- C9: over any chronologically ordered series of at least 6 rows with
non-missing prices, the synthesized precio_ma3 at every position i ≥ 2 is
the arithmetic mean of the prices at positions i-2, i-1, i, and
precio_lag1 at every position j ≥ 1 is the price at position j-1. -/
theorem C9_ma3_y_lag1 (ops : OpsFlotantes) (filas : List (Date × ℚ))
    (hlen : 6 ≤ filas.length)
    (hord : List.Sorted Date.le (filas.map Prod.fst))
    (i j : Nat) (hi2 : 2 ≤ i) (hi : i < filas.length)
    (hj1 : 1 ≤ j) (hj : j < filas.length) :
    ((crear_caracteristicas_temporales ops
        (filas.map (fun par => (⟨par.1, some par.2⟩ : DRow))))[i]?).map
        FeatureRow.precio_ma3 =
      some (some (((filas.getD (i - 2) parDefecto).2 +
        (filas.getD (i - 1) parDefecto).2 +
        (filas.getD i parDefecto).2) / 3)) ∧
    ((crear_caracteristicas_temporales ops
        (filas.map (fun par => (⟨par.1, some par.2⟩ : DRow))))[j]?).map
        FeatureRow.precio_lag1 =
      some (some ((filas.getD (j - 1) parDefecto).2)) := by
  have hdf : (filas.map (fun par => (⟨par.1, some par.2⟩ : DRow))).length
      = filas.length := by simp
  set df := filas.map (fun par => (⟨par.1, some par.2⟩ : DRow)) with hdfdef
  have hpre : df.map DRow.precio = filas.map (fun par => some par.2) := by
    rw [hdfdef, List.map_map]
    rfl
  have hplen : (df.map DRow.precio).length = filas.length := by
    rw [hpre, List.length_map]
  have hget : ∀ x, x < filas.length →
      (df.map DRow.precio).getD x none = some ((filas.getD x parDefecto).2) := by
    intro x hx
    rw [hpre,
      List.getD_eq_getElem (filas.map fun par => some par.2) none
        (by rw [List.length_map]; exact hx),
      List.getElem_map,
      List.getD_eq_getElem filas parDefecto hx]
  constructor
  · obtain ⟨hma3, _⟩ := crear_getElem_campos ops df i (by rw [hdf]; exact hi)
    rw [hma3]
    have hri : (rollingApply 3 listaMedia (df.map DRow.precio))[i]? =
        some (if 3 ≤ i + 1 then
          match (((df.map DRow.precio).take (i + 1)).drop (i + 1 - 3)).mapM id with
          | some vs => some (listaMedia vs)
          | none => none
        else none) := by
      unfold rollingApply
      rw [List.getElem?_map, List.getElem?_range (by rw [hplen]; exact hi)]
      rfl
    rw [List.getD_eq_getElem?_getD, hri]
    rw [if_pos (by omega)]
    rw [ventana_tres (df.map DRow.precio) i hi2 (by rw [hplen]; exact hi)]
    rw [hget (i - 2) (by omega), hget (i - 1) (by omega), hget i hi]
    show some (some (listaMedia
      [(filas.getD (i - 2) parDefecto).2, (filas.getD (i - 1) parDefecto).2,
       (filas.getD i parDefecto).2])) = _
    have hmed : ∀ a b c : ℚ, listaMedia [a, b, c] = (a + b + c) / 3 := by
      intro a b c
      simp [listaMedia]
      ring
    rw [hmed]
  · obtain ⟨_, hlag⟩ := crear_getElem_campos ops df j (by rw [hdf]; exact hj)
    rw [hlag]
    rw [List.getD_eq_getElem?_getD,
      shiftk_getElem? 1 (df.map DRow.precio) j hj1 (by rw [hplen]; exact hj)]
    rw [hpre,
      List.getElem?_eq_getElem (by rw [List.length_map]; omega),
      List.getElem_map,
      List.getD_eq_getElem filas parDefecto (by omega)]
    rfl

-- Concrete six-row ordered series with non-missing prices.
def filasC9 : List (Date × ℚ) :=
  [(⟨2024, 1, 1⟩, 50), (⟨2024, 2, 1⟩, 55), (⟨2024, 3, 1⟩, 60),
   (⟨2024, 4, 1⟩, 58), (⟨2024, 5, 1⟩, 62), (⟨2024, 6, 1⟩, 65)]

/-- C9 witness at the concrete series, positions i = 2 and j = 1. -/
theorem C9_testigo :
    ((crear_caracteristicas_temporales opsCero
        (filasC9.map (fun par => (⟨par.1, some par.2⟩ : DRow))))[2]?).map
        FeatureRow.precio_ma3 =
      some (some (((filasC9.getD 0 parDefecto).2 +
        (filasC9.getD 1 parDefecto).2 + (filasC9.getD 2 parDefecto).2) / 3)) ∧
    ((crear_caracteristicas_temporales opsCero
        (filasC9.map (fun par => (⟨par.1, some par.2⟩ : DRow))))[1]?).map
        FeatureRow.precio_lag1 =
      some (some ((filasC9.getD 0 parDefecto).2)) :=
  C9_ma3_y_lag1 opsCero filasC9 (by decide) (by decide) 2 1 (by decide)
    (by decide) (by decide) (by decide)
